import Mathlib

/-!
# Device memory layer (`src/runtime/memory.cpp`)

A shallow embedding of the sixteen functions of `memory.cpp`.

* The execution runtime (`rtMalloc`, `rtMemcpy`, `rtEnableP2P`, ...) is external.  It is
  embedded as an arbitrary oracle `Runtime` that answers every primitive call from the
  history of calls made so far; every call the layer makes is appended, with the oracle's
  answer, to the `trace` of the state.  "No runtime primitive is invoked" is therefore
  "the trace is unchanged".
* The accounting counters behind `ACL_ADD_*_COUNT` are the second component of the state.
* Names the translation unit takes from headers that are not part of `src/` (enumeration
  values, flag bits, `RT_ERROR_NONE`, `GetAlignedSize`) are fields of `Env`; the general
  theorems quantify over `Env`, and `sampleEnv` is one instance used to evaluate the code
  on explicit inputs.
* Logging (`ACL_LOG_*`, `ReportInputError`) and profiling (`ACL_PROFILING_REG`) have no
  effect on results, runtime calls or counters and are left out.
* `size_t`, `uint32_t` flags and pointers are `Nat` (`nullptr` is `0`); `int32_t` device
  ids, enumeration values and runtime status codes are `Int`;
  `static_cast<uint32_t>` of an `int32_t` is reduction modulo `2^32`.
-/

namespace Acl

/-! ## Data model -/

/-- Modelled from the spec: the error taxonomy of section 7 (the headers defining
`aclError`, its constants and `ACL_GET_ERRCODE_RTS` are not under `src/`).
`RuntimeFailure` wraps the runtime status code that was translated. -/
inductive aclError where
  | ACL_SUCCESS
  | ACL_ERROR_INVALID_PARAM
  | ACL_ERROR_FEATURE_UNSUPPORTED
  | RuntimeFailure (rtErr : Int)
  deriving DecidableEq, Repr

/-- Modelled from the spec: the macro `ACL_GET_ERRCODE_RTS` (absent header), which
translates a runtime status into the layer's own error code. -/
def ACL_GET_ERRCODE_RTS (rtErr : Int) : aclError := aclError.RuntimeFailure rtErr

/-- The null pointer. -/
def nullptr : Nat := 0

/-- Conversion `static_cast<uint32_t>(x)` of an `int32_t`. -/
def toUInt32 (x : Int) : Int := x % 4294967296

/-- Names used by `memory.cpp` whose definitions live in headers outside `src/`. -/
structure Env where
  ACL_MEM_MALLOC_HUGE_FIRST : Int
  ACL_MEM_MALLOC_HUGE_ONLY : Int
  ACL_MEM_MALLOC_NORMAL_ONLY : Int
  ACL_MEM_MALLOC_HUGE_FIRST_P2P : Int
  ACL_MEM_MALLOC_HUGE_ONLY_P2P : Int
  ACL_MEM_MALLOC_NORMAL_ONLY_P2P : Int
  RT_MEMORY_DEFAULT : Nat
  RT_MEMORY_POLICY_HUGE_PAGE_FIRST : Nat
  RT_MEMORY_POLICY_HUGE_PAGE_ONLY : Nat
  RT_MEMORY_POLICY_DEFAULT_PAGE_ONLY : Nat
  RT_MEMORY_POLICY_HUGE_PAGE_FIRST_P2P : Nat
  RT_MEMORY_POLICY_HUGE_PAGE_ONLY_P2P : Nat
  RT_MEMORY_POLICY_DEFAULT_PAGE_ONLY_P2P : Nat
  ACL_MEMCPY_HOST_TO_HOST : Int
  ACL_MEMCPY_HOST_TO_DEVICE : Int
  ACL_MEMCPY_DEVICE_TO_HOST : Int
  ACL_MEMCPY_DEVICE_TO_DEVICE : Int
  RT_MEMCPY_HOST_TO_HOST : Int
  RT_MEMCPY_HOST_TO_DEVICE : Int
  RT_MEMCPY_DEVICE_TO_HOST : Int
  RT_MEMCPY_DEVICE_TO_DEVICE : Int
  RT_MEMCPY_RESERVED : Int
  RT_ERROR_NONE : Int
  -- the helper `GetAlignedSize(size, alignedSize)` of `utils/math_utils.h`: its status
  -- and the value it leaves in `alignedSize`
  GetAlignedSize : Nat → aclError × Nat

/-- A call of a runtime primitive, with the arguments the layer passes. -/
inductive RtCall where
  | rtMalloc (devPtr size flags : Nat)
  | rtMallocCached (devPtr size flags : Nat)
  | rtFlushCache (devPtr size : Nat)
  | rtInvalidCache (devPtr size : Nat)
  | rtFree (devPtr : Nat)
  | rtMallocHost (hostPtr size : Nat)
  | rtFreeHost (hostPtr : Nat)
  | rtMemcpy (dst destMax src count : Nat) (kind : Int)
  | rtMemset (devPtr maxCount : Nat) (value : Int) (count : Nat)
  | rtMemcpyAsync (dst destMax src count : Nat) (kind : Int) (stream : Nat)
  | rtMemsetAsync (devPtr maxCount : Nat) (value : Int) (count : Nat) (stream : Nat)
  | rtGetDevicePhyIdByIndex (index : Int)
  | rtDeviceCanAccessPeer (canAccessPeer : Nat) (device phyId : Int)
  | rtGetDevice
  | rtEnableP2P (device phyId : Int) (flags : Nat)
  | rtDisableP2P (device phyId : Int)
  | rtMemGetInfoEx (memInfoType : Int) (free total : Nat)
  deriving DecidableEq, Repr

/-- What a runtime primitive answers: its status, and the value it leaves in the local
variable whose address it was given (`deviceId` for `rtGetDevice`, `peerPhyId` for
`rtGetDevicePhyIdByIndex`; unused for the other primitives). -/
structure RtReply where
  status : Int
  out : Int
  deriving DecidableEq, Repr

/-- One entry of the trace: a primitive call and the runtime's answer to it. -/
structure RtEvent where
  call : RtCall
  reply : RtReply
  deriving DecidableEq, Repr

/-- The external runtime: an arbitrary answer to each call, given the calls so far. -/
abbrev Runtime := List RtEvent → RtCall → RtReply

/-- The statistics categories used by `memory.cpp`. -/
inductive aclStatisticsType where
  | ACL_STATISTICS_MALLOC_FREE
  | ACL_STATISTICS_MALLOC_FREE_HOST
  deriving DecidableEq, Repr

/-- The four counters of one statistics category. -/
structure Counters where
  applyTotal : Nat
  applySuccess : Nat
  releaseTotal : Nat
  releaseSuccess : Nat
  deriving DecidableEq, Repr

/-- Modelled from the spec: the process-wide counters store keyed by category
(`toolchain/resource_statistics.h` is not under `src/`). -/
structure ResourceStatistics where
  mallocFree : Counters
  mallocFreeHost : Counters
  deriving DecidableEq, Repr

/-- The counters of a category. -/
def ResourceStatistics.get (s : ResourceStatistics) : aclStatisticsType → Counters
  | aclStatisticsType.ACL_STATISTICS_MALLOC_FREE => s.mallocFree
  | aclStatisticsType.ACL_STATISTICS_MALLOC_FREE_HOST => s.mallocFreeHost

/-- Replace the counters of a category. -/
def ResourceStatistics.modify (s : ResourceStatistics) (t : aclStatisticsType)
    (f : Counters → Counters) : ResourceStatistics :=
  match t with
  | aclStatisticsType.ACL_STATISTICS_MALLOC_FREE => { s with mallocFree := f s.mallocFree }
  | aclStatisticsType.ACL_STATISTICS_MALLOC_FREE_HOST =>
      { s with mallocFreeHost := f s.mallocFreeHost }

/-- All counters zero. -/
def zeroStatistics : ResourceStatistics := ⟨⟨0, 0, 0, 0⟩, ⟨0, 0, 0, 0⟩⟩

/-- The state the layer acts on: the runtime calls made so far and the counters. -/
structure AclState where
  trace : List RtEvent
  stats : ResourceStatistics
  deriving DecidableEq, Repr

/-- Modelled from the spec: macro `ACL_ADD_APPLY_TOTAL_COUNT` (absent header), one more
attempted allocation in the category. -/
def ACL_ADD_APPLY_TOTAL_COUNT (t : aclStatisticsType) (st : AclState) : AclState :=
  { st with stats := st.stats.modify t (fun c => { c with applyTotal := c.applyTotal + 1 }) }

/-- Modelled from the spec: macro `ACL_ADD_APPLY_SUCCESS_COUNT` (absent header), one more
succeeded allocation in the category. -/
def ACL_ADD_APPLY_SUCCESS_COUNT (t : aclStatisticsType) (st : AclState) : AclState :=
  { st with stats := st.stats.modify t (fun c => { c with applySuccess := c.applySuccess + 1 }) }

/-- Modelled from the spec: macro `ACL_ADD_RELEASE_TOTAL_COUNT` (absent header), one more
attempted release in the category. -/
def ACL_ADD_RELEASE_TOTAL_COUNT (t : aclStatisticsType) (st : AclState) : AclState :=
  { st with stats := st.stats.modify t (fun c => { c with releaseTotal := c.releaseTotal + 1 }) }

/-- Modelled from the spec: macro `ACL_ADD_RELEASE_SUCCESS_COUNT` (absent header), one
more succeeded release in the category. -/
def ACL_ADD_RELEASE_SUCCESS_COUNT (t : aclStatisticsType) (st : AclState) : AclState :=
  { st with
    stats := st.stats.modify t (fun c => { c with releaseSuccess := c.releaseSuccess + 1 }) }

/-- Invoke a runtime primitive: ask the oracle and record call and answer. -/
def rtInvoke (rt : Runtime) (c : RtCall) (st : AclState) : RtReply × AclState :=
  (rt st.trace c, { st with trace := st.trace ++ [⟨c, rt st.trace c⟩] })

/-! ## The functions of `memory.cpp` -/

/-- `aclrtMalloc(devPtr, size, policy)`. -/
def aclrtMalloc (E : Env) (rt : Runtime) (devPtr size : Nat) (policy : Int)
    (st0 : AclState) : aclError × AclState :=
  let st := ACL_ADD_APPLY_TOTAL_COUNT aclStatisticsType.ACL_STATISTICS_MALLOC_FREE st0
  if devPtr = nullptr then (aclError.ACL_ERROR_INVALID_PARAM, st)
  else if size = 0 then (aclError.ACL_ERROR_INVALID_PARAM, st)
  else
    let aligned := E.GetAlignedSize size
    if aligned.1 ≠ aclError.ACL_SUCCESS then (aligned.1, st)
    else
      let alignedSize := aligned.2
      let flags := E.RT_MEMORY_DEFAULT
      let flags :=
        if policy = E.ACL_MEM_MALLOC_HUGE_FIRST then
          flags ||| E.RT_MEMORY_POLICY_HUGE_PAGE_FIRST
        else if policy = E.ACL_MEM_MALLOC_HUGE_ONLY then
          flags ||| E.RT_MEMORY_POLICY_HUGE_PAGE_ONLY
        else if policy = E.ACL_MEM_MALLOC_NORMAL_ONLY then
          flags ||| E.RT_MEMORY_POLICY_DEFAULT_PAGE_ONLY
        else if policy = E.ACL_MEM_MALLOC_HUGE_FIRST_P2P then
          flags ||| E.RT_MEMORY_POLICY_HUGE_PAGE_FIRST_P2P
        else if policy = E.ACL_MEM_MALLOC_HUGE_ONLY_P2P then
          flags ||| E.RT_MEMORY_POLICY_HUGE_PAGE_ONLY_P2P
        else if policy = E.ACL_MEM_MALLOC_NORMAL_ONLY_P2P then
          flags ||| E.RT_MEMORY_POLICY_DEFAULT_PAGE_ONLY_P2P
        else flags
      let r := rtInvoke rt (RtCall.rtMalloc devPtr alignedSize flags) st
      if r.1.status ≠ E.RT_ERROR_NONE then (ACL_GET_ERRCODE_RTS r.1.status, r.2)
      else
        (aclError.ACL_SUCCESS,
          ACL_ADD_APPLY_SUCCESS_COUNT aclStatisticsType.ACL_STATISTICS_MALLOC_FREE r.2)

/-- `aclrtMallocCached(devPtr, size, policy)`. -/
def aclrtMallocCached (E : Env) (rt : Runtime) (devPtr size : Nat) (policy : Int)
    (st0 : AclState) : aclError × AclState :=
  let st := ACL_ADD_APPLY_TOTAL_COUNT aclStatisticsType.ACL_STATISTICS_MALLOC_FREE st0
  if devPtr = nullptr then (aclError.ACL_ERROR_INVALID_PARAM, st)
  else if size = 0 then (aclError.ACL_ERROR_INVALID_PARAM, st)
  else
    let aligned := E.GetAlignedSize size
    if aligned.1 ≠ aclError.ACL_SUCCESS then (aligned.1, st)
    else
      let alignedSize := aligned.2
      let cacheFlags := E.RT_MEMORY_DEFAULT
      let cacheFlags :=
        if policy = E.ACL_MEM_MALLOC_HUGE_FIRST then
          cacheFlags ||| E.RT_MEMORY_POLICY_HUGE_PAGE_FIRST
        else if policy = E.ACL_MEM_MALLOC_HUGE_ONLY then
          cacheFlags ||| E.RT_MEMORY_POLICY_HUGE_PAGE_ONLY
        else if policy = E.ACL_MEM_MALLOC_NORMAL_ONLY then
          cacheFlags ||| E.RT_MEMORY_POLICY_DEFAULT_PAGE_ONLY
        else cacheFlags
      let r := rtInvoke rt (RtCall.rtMallocCached devPtr alignedSize cacheFlags) st
      if r.1.status ≠ E.RT_ERROR_NONE then (ACL_GET_ERRCODE_RTS r.1.status, r.2)
      else
        (aclError.ACL_SUCCESS,
          ACL_ADD_APPLY_SUCCESS_COUNT aclStatisticsType.ACL_STATISTICS_MALLOC_FREE r.2)

/-- `aclrtMemFlush(devPtr, size)`. -/
def aclrtMemFlush (E : Env) (rt : Runtime) (devPtr size : Nat) (st : AclState) :
    aclError × AclState :=
  if devPtr = nullptr then (aclError.ACL_ERROR_INVALID_PARAM, st)
  else if size = 0 then (aclError.ACL_ERROR_INVALID_PARAM, st)
  else
    let r := rtInvoke rt (RtCall.rtFlushCache devPtr size) st
    if r.1.status ≠ E.RT_ERROR_NONE then (ACL_GET_ERRCODE_RTS r.1.status, r.2)
    else (aclError.ACL_SUCCESS, r.2)

/-- `aclrtMemInvalidate(devPtr, size)`. -/
def aclrtMemInvalidate (E : Env) (rt : Runtime) (devPtr size : Nat) (st : AclState) :
    aclError × AclState :=
  if devPtr = nullptr then (aclError.ACL_ERROR_INVALID_PARAM, st)
  else if size = 0 then (aclError.ACL_ERROR_INVALID_PARAM, st)
  else
    let r := rtInvoke rt (RtCall.rtInvalidCache devPtr size) st
    if r.1.status ≠ E.RT_ERROR_NONE then (ACL_GET_ERRCODE_RTS r.1.status, r.2)
    else (aclError.ACL_SUCCESS, r.2)

/-- `aclrtFree(devPtr)`. -/
def aclrtFree (E : Env) (rt : Runtime) (devPtr : Nat) (st0 : AclState) :
    aclError × AclState :=
  let st := ACL_ADD_RELEASE_TOTAL_COUNT aclStatisticsType.ACL_STATISTICS_MALLOC_FREE st0
  if devPtr = nullptr then (aclError.ACL_ERROR_INVALID_PARAM, st)
  else
    let r := rtInvoke rt (RtCall.rtFree devPtr) st
    if r.1.status ≠ E.RT_ERROR_NONE then (ACL_GET_ERRCODE_RTS r.1.status, r.2)
    else
      (aclError.ACL_SUCCESS,
        ACL_ADD_RELEASE_SUCCESS_COUNT aclStatisticsType.ACL_STATISTICS_MALLOC_FREE r.2)

/-- `aclrtMallocHost(hostPtr, size)`. -/
def aclrtMallocHost (E : Env) (rt : Runtime) (hostPtr size : Nat) (st0 : AclState) :
    aclError × AclState :=
  let st := ACL_ADD_APPLY_TOTAL_COUNT aclStatisticsType.ACL_STATISTICS_MALLOC_FREE_HOST st0
  if hostPtr = nullptr then (aclError.ACL_ERROR_INVALID_PARAM, st)
  else if size = 0 then (aclError.ACL_ERROR_INVALID_PARAM, st)
  else
    let r := rtInvoke rt (RtCall.rtMallocHost hostPtr size) st
    if r.1.status ≠ E.RT_ERROR_NONE then (ACL_GET_ERRCODE_RTS r.1.status, r.2)
    else
      (aclError.ACL_SUCCESS,
        ACL_ADD_APPLY_SUCCESS_COUNT aclStatisticsType.ACL_STATISTICS_MALLOC_FREE_HOST r.2)

/-- `aclrtFreeHost(hostPtr)`. -/
def aclrtFreeHost (E : Env) (rt : Runtime) (hostPtr : Nat) (st0 : AclState) :
    aclError × AclState :=
  let st := ACL_ADD_RELEASE_TOTAL_COUNT aclStatisticsType.ACL_STATISTICS_MALLOC_FREE_HOST st0
  if hostPtr = nullptr then (aclError.ACL_ERROR_INVALID_PARAM, st)
  else
    let r := rtInvoke rt (RtCall.rtFreeHost hostPtr) st
    if r.1.status ≠ E.RT_ERROR_NONE then (ACL_GET_ERRCODE_RTS r.1.status, r.2)
    else
      (aclError.ACL_SUCCESS,
        ACL_ADD_RELEASE_SUCCESS_COUNT aclStatisticsType.ACL_STATISTICS_MALLOC_FREE_HOST r.2)

/-- `MemcpyKindTranslate(kind, rtKind)`: the status and the value of the reference
parameter `rtKind` afterwards (left as it was in the `default` case). -/
def MemcpyKindTranslate (E : Env) (kind : Int) (rtKind : Int) : aclError × Int :=
  if kind = E.ACL_MEMCPY_HOST_TO_HOST then (aclError.ACL_SUCCESS, E.RT_MEMCPY_HOST_TO_HOST)
  else if kind = E.ACL_MEMCPY_HOST_TO_DEVICE then
    (aclError.ACL_SUCCESS, E.RT_MEMCPY_HOST_TO_DEVICE)
  else if kind = E.ACL_MEMCPY_DEVICE_TO_HOST then
    (aclError.ACL_SUCCESS, E.RT_MEMCPY_DEVICE_TO_HOST)
  else if kind = E.ACL_MEMCPY_DEVICE_TO_DEVICE then
    (aclError.ACL_SUCCESS, E.RT_MEMCPY_DEVICE_TO_DEVICE)
  else (aclError.ACL_ERROR_INVALID_PARAM, rtKind)

/-- `aclrtMemcpy(dst, destMax, src, count, kind)`. -/
def aclrtMemcpy (E : Env) (rt : Runtime) (dst destMax src count : Nat) (kind : Int)
    (st : AclState) : aclError × AclState :=
  if dst = nullptr then (aclError.ACL_ERROR_INVALID_PARAM, st)
  else if src = nullptr then (aclError.ACL_ERROR_INVALID_PARAM, st)
  else
    let tr := MemcpyKindTranslate E kind E.RT_MEMCPY_RESERVED
    if tr.1 ≠ aclError.ACL_SUCCESS then (tr.1, st)
    else
      let r := rtInvoke rt (RtCall.rtMemcpy dst destMax src count tr.2) st
      if r.1.status ≠ E.RT_ERROR_NONE then (ACL_GET_ERRCODE_RTS r.1.status, r.2)
      else (aclError.ACL_SUCCESS, r.2)

/-- `aclrtMemset(devPtr, maxCount, value, count)`. -/
def aclrtMemset (E : Env) (rt : Runtime) (devPtr maxCount : Nat) (value : Int) (count : Nat)
    (st : AclState) : aclError × AclState :=
  if devPtr = nullptr then (aclError.ACL_ERROR_INVALID_PARAM, st)
  else
    let r := rtInvoke rt (RtCall.rtMemset devPtr maxCount value count) st
    if r.1.status ≠ E.RT_ERROR_NONE then (ACL_GET_ERRCODE_RTS r.1.status, r.2)
    else (aclError.ACL_SUCCESS, r.2)

/-- `aclrtMemcpyAsync(dst, destMax, src, count, kind, stream)`. -/
def aclrtMemcpyAsync (E : Env) (rt : Runtime) (dst destMax src count : Nat) (kind : Int)
    (stream : Nat) (st : AclState) : aclError × AclState :=
  if dst = nullptr then (aclError.ACL_ERROR_INVALID_PARAM, st)
  else if src = nullptr then (aclError.ACL_ERROR_INVALID_PARAM, st)
  else
    let tr := MemcpyKindTranslate E kind E.RT_MEMCPY_RESERVED
    if tr.1 ≠ aclError.ACL_SUCCESS then (tr.1, st)
    else
      let r := rtInvoke rt (RtCall.rtMemcpyAsync dst destMax src count tr.2 stream) st
      if r.1.status ≠ E.RT_ERROR_NONE then (ACL_GET_ERRCODE_RTS r.1.status, r.2)
      else (aclError.ACL_SUCCESS, r.2)

/-- `aclrtMemsetAsync(devPtr, maxCount, value, count, stream)`. -/
def aclrtMemsetAsync (E : Env) (rt : Runtime) (devPtr maxCount : Nat) (value : Int)
    (count stream : Nat) (st : AclState) : aclError × AclState :=
  if devPtr = nullptr then (aclError.ACL_ERROR_INVALID_PARAM, st)
  else
    let r := rtInvoke rt (RtCall.rtMemsetAsync devPtr maxCount value count stream) st
    if r.1.status ≠ E.RT_ERROR_NONE then (ACL_GET_ERRCODE_RTS r.1.status, r.2)
    else (aclError.ACL_SUCCESS, r.2)

/-- `aclrtDeviceCanAccessPeer(canAccessPeer, deviceId, peerDeviceId)`. -/
def aclrtDeviceCanAccessPeer (E : Env) (rt : Runtime) (canAccessPeer : Nat)
    (deviceId peerDeviceId : Int) (st : AclState) : aclError × AclState :=
  if deviceId = peerDeviceId then (aclError.ACL_ERROR_INVALID_PARAM, st)
  else
    let r1 := rtInvoke rt (RtCall.rtGetDevicePhyIdByIndex (toUInt32 peerDeviceId)) st
    if r1.1.status ≠ E.RT_ERROR_NONE then (ACL_GET_ERRCODE_RTS r1.1.status, r1.2)
    else
      let peerPhyId := r1.1.out
      let r2 := rtInvoke rt
        (RtCall.rtDeviceCanAccessPeer canAccessPeer (toUInt32 deviceId) peerPhyId) r1.2
      if r2.1.status ≠ E.RT_ERROR_NONE then (ACL_GET_ERRCODE_RTS r2.1.status, r2.2)
      else (aclError.ACL_SUCCESS, r2.2)

/-- `aclrtDeviceEnablePeerAccess(peerDeviceId, flags)`. -/
def aclrtDeviceEnablePeerAccess (E : Env) (rt : Runtime) (peerDeviceId : Int) (flags : Nat)
    (st : AclState) : aclError × AclState :=
  if flags ≠ 0 then (aclError.ACL_ERROR_FEATURE_UNSUPPORTED, st)
  else
    let r0 := rtInvoke rt RtCall.rtGetDevice st
    if r0.1.status ≠ E.RT_ERROR_NONE then (ACL_GET_ERRCODE_RTS r0.1.status, r0.2)
    else
      let deviceId := r0.1.out
      if deviceId = peerDeviceId then (aclError.ACL_ERROR_INVALID_PARAM, r0.2)
      else
        let r1 := rtInvoke rt (RtCall.rtGetDevicePhyIdByIndex (toUInt32 peerDeviceId)) r0.2
        if r1.1.status ≠ E.RT_ERROR_NONE then (ACL_GET_ERRCODE_RTS r1.1.status, r1.2)
        else
          let peerPhyId := r1.1.out
          let r2 := rtInvoke rt (RtCall.rtEnableP2P (toUInt32 deviceId) peerPhyId flags) r1.2
          if r2.1.status ≠ E.RT_ERROR_NONE then (ACL_GET_ERRCODE_RTS r2.1.status, r2.2)
          else (aclError.ACL_SUCCESS, r2.2)

/-- `aclrtDeviceDisablePeerAccess(peerDeviceId)`. -/
def aclrtDeviceDisablePeerAccess (E : Env) (rt : Runtime) (peerDeviceId : Int)
    (st : AclState) : aclError × AclState :=
  let r0 := rtInvoke rt RtCall.rtGetDevice st
  if r0.1.status ≠ E.RT_ERROR_NONE then (ACL_GET_ERRCODE_RTS r0.1.status, r0.2)
  else
    let deviceId := r0.1.out
    if deviceId = peerDeviceId then (aclError.ACL_ERROR_INVALID_PARAM, r0.2)
    else
      let r1 := rtInvoke rt (RtCall.rtGetDevicePhyIdByIndex (toUInt32 peerDeviceId)) r0.2
      if r1.1.status ≠ E.RT_ERROR_NONE then (ACL_GET_ERRCODE_RTS r1.1.status, r1.2)
      else
        let peerPhyId := r1.1.out
        let r2 := rtInvoke rt (RtCall.rtDisableP2P (toUInt32 deviceId) peerPhyId) r1.2
        if r2.1.status ≠ E.RT_ERROR_NONE then (ACL_GET_ERRCODE_RTS r2.1.status, r2.2)
        else (aclError.ACL_SUCCESS, r2.2)

/-- `aclrtGetMemInfo(attr, free, total)`. -/
def aclrtGetMemInfo (E : Env) (rt : Runtime) (attr : Int) (free total : Nat)
    (st : AclState) : aclError × AclState :=
  if free = nullptr then (aclError.ACL_ERROR_INVALID_PARAM, st)
  else if total = nullptr then (aclError.ACL_ERROR_INVALID_PARAM, st)
  else
    let r := rtInvoke rt (RtCall.rtMemGetInfoEx attr free total) st
    if r.1.status ≠ E.RT_ERROR_NONE then (ACL_GET_ERRCODE_RTS r.1.status, r.2)
    else (aclError.ACL_SUCCESS, r.2)

/-! ## Sequences of allocator calls -/

/-- A call of one of the five allocation and release operations, with its arguments. -/
inductive AllocCall where
  | malloc (devPtr size : Nat) (policy : Int)
  | mallocCached (devPtr size : Nat) (policy : Int)
  | mallocHost (hostPtr size : Nat)
  | free (devPtr : Nat)
  | freeHost (hostPtr : Nat)
  deriving DecidableEq, Repr

/-- Carry out one call. -/
def AllocCall.exec (E : Env) (rt : Runtime) (c : AllocCall) (st : AclState) :
    aclError × AclState :=
  match c with
  | AllocCall.malloc devPtr size policy => aclrtMalloc E rt devPtr size policy st
  | AllocCall.mallocCached devPtr size policy => aclrtMallocCached E rt devPtr size policy st
  | AllocCall.mallocHost hostPtr size => aclrtMallocHost E rt hostPtr size st
  | AllocCall.free devPtr => aclrtFree E rt devPtr st
  | AllocCall.freeHost hostPtr => aclrtFreeHost E rt hostPtr st

/-- Carry out a sequence of calls, one after the other, and give the final state. -/
def runCalls (E : Env) (rt : Runtime) (calls : List AllocCall) (st : AclState) : AclState :=
  calls.foldl (fun s c => (c.exec E rt s).2) st

/-- In every category, no more successes than attempts. -/
def StatsConsistent (s : ResourceStatistics) : Prop :=
  ∀ t : aclStatisticsType,
    (s.get t).applySuccess ≤ (s.get t).applyTotal ∧
    (s.get t).releaseSuccess ≤ (s.get t).releaseTotal

/-- The peer primitives: `rtDeviceCanAccessPeer`, `rtEnableP2P`, `rtDisableP2P`. -/
def RtCall.isPeerPrimitive : RtCall → Bool
  | RtCall.rtDeviceCanAccessPeer _ _ _ => true
  | RtCall.rtEnableP2P _ _ _ => true
  | RtCall.rtDisableP2P _ _ => true
  | _ => false

/-- The four defined copy kinds. -/
def Env.memcpyKinds (E : Env) : List Int :=
  [E.ACL_MEMCPY_HOST_TO_HOST, E.ACL_MEMCPY_HOST_TO_DEVICE, E.ACL_MEMCPY_DEVICE_TO_HOST,
    E.ACL_MEMCPY_DEVICE_TO_DEVICE]

/-- The four copy kinds are pairwise different, as the case labels of the `switch` in
`MemcpyKindTranslate` have to be. -/
abbrev Env.MemcpyKindsDistinct (E : Env) : Prop := E.memcpyKinds.Nodup

/-- A failed resolution ends the operation: if the events `new` of one call contain a
`rtGetDevicePhyIdByIndex` that did not answer `RT_ERROR_NONE`, the call's `result` is
that status translated and `new` contains no peer primitive. -/
def ResolutionFailureStops (E : Env) (result : aclError) (new : List RtEvent) : Prop :=
  ∀ (index : Int) (reply : RtReply),
    (⟨RtCall.rtGetDevicePhyIdByIndex index, reply⟩ : RtEvent) ∈ new →
    reply.status ≠ E.RT_ERROR_NONE →
    result = ACL_GET_ERRCODE_RTS reply.status ∧
    ∀ ev ∈ new, ev.call.isPeerPrimitive = false

/-- Modelled from the spec: the capacity check of the runtime primitive `rtMemcpy`, which
is not part of `src/` (section 4.5: the declared destination capacity "must be respected
by the runtime", a capacity violation is "detected by the runtime").  Whatever the calls
made so far, `rtMemcpy` with `destMax < count` does not answer `RT_ERROR_NONE`. -/
def RuntimeChecksCapacity (E : Env) (rt : Runtime) : Prop :=
  ∀ (history : List RtEvent) (dst destMax src count : Nat) (kind : Int),
    destMax < count →
    (rt history (RtCall.rtMemcpy dst destMax src count kind)).status ≠ E.RT_ERROR_NONE

/-! ## Concrete instances, for evaluating the code on explicit inputs -/

/-- A sample environment: enumeration values in declaration order, one flag bit per
policy, and `GetAlignedSize` rounding up to a multiple of 32 plus 32 with an overflow
check on `size_t`. -/
def sampleEnv : Env where
  ACL_MEM_MALLOC_HUGE_FIRST := 0
  ACL_MEM_MALLOC_HUGE_ONLY := 1
  ACL_MEM_MALLOC_NORMAL_ONLY := 2
  ACL_MEM_MALLOC_HUGE_FIRST_P2P := 3
  ACL_MEM_MALLOC_HUGE_ONLY_P2P := 4
  ACL_MEM_MALLOC_NORMAL_ONLY_P2P := 5
  RT_MEMORY_DEFAULT := 0
  RT_MEMORY_POLICY_HUGE_PAGE_FIRST := 1024
  RT_MEMORY_POLICY_HUGE_PAGE_ONLY := 2048
  RT_MEMORY_POLICY_DEFAULT_PAGE_ONLY := 4096
  RT_MEMORY_POLICY_HUGE_PAGE_FIRST_P2P := 8192
  RT_MEMORY_POLICY_HUGE_PAGE_ONLY_P2P := 16384
  RT_MEMORY_POLICY_DEFAULT_PAGE_ONLY_P2P := 32768
  ACL_MEMCPY_HOST_TO_HOST := 0
  ACL_MEMCPY_HOST_TO_DEVICE := 1
  ACL_MEMCPY_DEVICE_TO_HOST := 2
  ACL_MEMCPY_DEVICE_TO_DEVICE := 3
  RT_MEMCPY_HOST_TO_HOST := 0
  RT_MEMCPY_HOST_TO_DEVICE := 1
  RT_MEMCPY_DEVICE_TO_HOST := 2
  RT_MEMCPY_DEVICE_TO_DEVICE := 3
  RT_MEMCPY_RESERVED := 8
  RT_ERROR_NONE := 0
  GetAlignedSize := fun size =>
    if size + 64 < 18446744073709551616 then
      (aclError.ACL_SUCCESS, (size + 63) / 32 * 32)
    else (aclError.ACL_ERROR_INVALID_PARAM, 0)

/-- A runtime in which every primitive succeeds: the current device is 2 and logical
device `i` has physical id `i + 100`. -/
def okRuntime : Runtime := fun _ c =>
  match c with
  | RtCall.rtGetDevice => ⟨0, 2⟩
  | RtCall.rtGetDevicePhyIdByIndex i => ⟨0, i + 100⟩
  | _ => ⟨0, 0⟩

/-- A runtime in which the current device is 2 and every other primitive fails with
status 507. -/
def failingRuntime : Runtime := fun _ c =>
  match c with
  | RtCall.rtGetDevice => ⟨0, 2⟩
  | _ => ⟨507, 0⟩

/-- A runtime whose `rtMemcpy` checks the capacity: it fails with status 507 when
`destMax < count` and succeeds otherwise; every other primitive succeeds. -/
def capacityCheckingRuntime : Runtime := fun _ c =>
  match c with
  | RtCall.rtMemcpy _ destMax _ count _ => if destMax < count then ⟨507, 0⟩ else ⟨0, 0⟩
  | _ => ⟨0, 0⟩

/-- The initial state: no runtime call made, all counters zero. -/
def initState : AclState := ⟨[], zeroStatistics⟩

/-! ## Theorems -/

/-- C3: with a non-null output pointer and `size = 0`, each of `aclrtMalloc`,
`aclrtMallocCached` and `aclrtMallocHost` returns `ACL_ERROR_INVALID_PARAM`, whatever the
policy, and invokes no runtime primitive (so not its allocator either). -/
theorem zero_size_rejected (E : Env) (rt : Runtime) (ptr : Nat) (policy : Int)
    (st : AclState) (hptr : ptr ≠ nullptr) :
    ((aclrtMalloc E rt ptr 0 policy st).1 = aclError.ACL_ERROR_INVALID_PARAM ∧
      (aclrtMalloc E rt ptr 0 policy st).2.trace = st.trace) ∧
    ((aclrtMallocCached E rt ptr 0 policy st).1 = aclError.ACL_ERROR_INVALID_PARAM ∧
      (aclrtMallocCached E rt ptr 0 policy st).2.trace = st.trace) ∧
    ((aclrtMallocHost E rt ptr 0 st).1 = aclError.ACL_ERROR_INVALID_PARAM ∧
      (aclrtMallocHost E rt ptr 0 st).2.trace = st.trace) := by
  simp [aclrtMalloc, aclrtMallocCached, aclrtMallocHost, ACL_ADD_APPLY_TOTAL_COUNT, hptr]

/-- Witness for C3: pointer 4096, policy 0, on the initial state. -/
theorem zero_size_rejected_witness :
    ((aclrtMalloc sampleEnv okRuntime 4096 0 0 initState).1
        = aclError.ACL_ERROR_INVALID_PARAM ∧
      (aclrtMalloc sampleEnv okRuntime 4096 0 0 initState).2.trace = initState.trace) ∧
    ((aclrtMallocCached sampleEnv okRuntime 4096 0 0 initState).1
        = aclError.ACL_ERROR_INVALID_PARAM ∧
      (aclrtMallocCached sampleEnv okRuntime 4096 0 0 initState).2.trace
        = initState.trace) ∧
    ((aclrtMallocHost sampleEnv okRuntime 4096 0 initState).1
        = aclError.ACL_ERROR_INVALID_PARAM ∧
      (aclrtMallocHost sampleEnv okRuntime 4096 0 initState).2.trace = initState.trace) :=
  zero_size_rejected sampleEnv okRuntime 4096 0 initState (by decide)

/-- C5: for every peer id and every non-zero `flags`, `aclrtDeviceEnablePeerAccess`
returns `ACL_ERROR_FEATURE_UNSUPPORTED` whatever the runtime would answer, and leaves the
state as it was: no runtime primitive (`rtGetDevice`, `rtGetDevicePhyIdByIndex`,
`rtEnableP2P`) is invoked. -/
theorem enable_nonzero_flags_unsupported (E : Env) (rt : Runtime) (peerDeviceId : Int)
    (flags : Nat) (st : AclState) (hflags : flags ≠ 0) :
    aclrtDeviceEnablePeerAccess E rt peerDeviceId flags st
      = (aclError.ACL_ERROR_FEATURE_UNSUPPORTED, st) := by
  simp [aclrtDeviceEnablePeerAccess, hflags]

/-- Witness for C5: peer 2, which the runtime reports as the current device, and
`flags = 1`; also on a runtime whose peer primitives all fail. -/
theorem enable_nonzero_flags_unsupported_witness :
    aclrtDeviceEnablePeerAccess sampleEnv okRuntime 2 1 initState
        = (aclError.ACL_ERROR_FEATURE_UNSUPPORTED, initState) ∧
    aclrtDeviceEnablePeerAccess sampleEnv failingRuntime 5 1 initState
        = (aclError.ACL_ERROR_FEATURE_UNSUPPORTED, initState) :=
  ⟨enable_nonzero_flags_unsupported sampleEnv okRuntime 2 1 initState (by decide),
    enable_nonzero_flags_unsupported sampleEnv failingRuntime 5 1 initState (by decide)⟩

/-- C6: for every device id `d`, every output location and every runtime,
`aclrtDeviceCanAccessPeer(out, d, d)` returns `ACL_ERROR_INVALID_PARAM` and leaves the
state as it was (no runtime call at all); and when the runtime reports `d` as the current
device, `aclrtDeviceDisablePeerAccess(d)` returns `ACL_ERROR_INVALID_PARAM` having
invoked `rtGetDevice` and nothing else (so neither `rtGetDevicePhyIdByIndex` nor
`rtDisableP2P`). -/
theorem self_peer_rejected (E : Env) (rt : Runtime) (out : Nat) (d : Int) (st : AclState) :
    aclrtDeviceCanAccessPeer E rt out d d st = (aclError.ACL_ERROR_INVALID_PARAM, st) ∧
    (rt st.trace RtCall.rtGetDevice = ⟨E.RT_ERROR_NONE, d⟩ →
      (aclrtDeviceDisablePeerAccess E rt d st).1 = aclError.ACL_ERROR_INVALID_PARAM ∧
      (aclrtDeviceDisablePeerAccess E rt d st).2.trace
        = st.trace ++ [⟨RtCall.rtGetDevice, ⟨E.RT_ERROR_NONE, d⟩⟩] ∧
      (aclrtDeviceDisablePeerAccess E rt d st).2.stats = st.stats) := by
  refine ⟨by simp [aclrtDeviceCanAccessPeer], ?_⟩
  intro hcur
  simp [aclrtDeviceDisablePeerAccess, rtInvoke, hcur]

/-- Witness for C6: `aclrtDeviceCanAccessPeer` on device 3 while the runtime's current
device is 2 and on a runtime whose primitives fail; `aclrtDeviceDisablePeerAccess` on
device 2 on the runtime whose current device is 2. -/
theorem self_peer_rejected_witness :
    aclrtDeviceCanAccessPeer sampleEnv okRuntime 4096 3 3 initState
      = (aclError.ACL_ERROR_INVALID_PARAM, initState) ∧
    aclrtDeviceCanAccessPeer sampleEnv failingRuntime nullptr (-1) (-1) initState
      = (aclError.ACL_ERROR_INVALID_PARAM, initState) ∧
    (aclrtDeviceDisablePeerAccess sampleEnv okRuntime 2 initState).1
      = aclError.ACL_ERROR_INVALID_PARAM ∧
    (aclrtDeviceDisablePeerAccess sampleEnv okRuntime 2 initState).2.trace
      = initState.trace ++ [⟨RtCall.rtGetDevice, ⟨sampleEnv.RT_ERROR_NONE, 2⟩⟩] ∧
    (aclrtDeviceDisablePeerAccess sampleEnv okRuntime 2 initState).2.stats
      = initState.stats :=
  ⟨(self_peer_rejected sampleEnv okRuntime 4096 3 initState).1,
    (self_peer_rejected sampleEnv failingRuntime nullptr (-1) initState).1,
    (self_peer_rejected sampleEnv okRuntime 4096 2 initState).2 rfl⟩

/-- C1, as stated, fails: with `flags = 1` and the peer equal to the current device 2
that the runtime reports, `aclrtDeviceEnablePeerAccess` returns
`ACL_ERROR_FEATURE_UNSUPPORTED`, not `ACL_ERROR_INVALID_PARAM`, and `rtGetDevice` is
never asked. -/
theorem enable_self_peer_nonzero_flags_counterexample :
    okRuntime initState.trace RtCall.rtGetDevice = ⟨sampleEnv.RT_ERROR_NONE, 2⟩ ∧
    (aclrtDeviceEnablePeerAccess sampleEnv okRuntime 2 1 initState).1
      = aclError.ACL_ERROR_FEATURE_UNSUPPORTED ∧
    (aclrtDeviceEnablePeerAccess sampleEnv okRuntime 2 1 initState).1
      ≠ aclError.ACL_ERROR_INVALID_PARAM ∧
    (aclrtDeviceEnablePeerAccess sampleEnv okRuntime 2 1 initState).2.trace = [] := by
  decide

/-- C1, amended: when the runtime reports current device `d` successfully,
`aclrtDeviceEnablePeerAccess(d, flags)` returns `ACL_ERROR_INVALID_PARAM` for
`flags = 0` and `ACL_ERROR_FEATURE_UNSUPPORTED` for every other `flags`: the flags check
is made before the device-id equality check.  In both cases neither
`rtGetDevicePhyIdByIndex` nor `rtEnableP2P` is invoked. -/
theorem enable_self_peer (E : Env) (rt : Runtime) (d : Int) (flags : Nat) (st : AclState)
    (hcur : rt st.trace RtCall.rtGetDevice = ⟨E.RT_ERROR_NONE, d⟩) :
    (aclrtDeviceEnablePeerAccess E rt d flags st).1
      = (if flags = 0 then aclError.ACL_ERROR_INVALID_PARAM
         else aclError.ACL_ERROR_FEATURE_UNSUPPORTED) ∧
    (aclrtDeviceEnablePeerAccess E rt d flags st).2.trace
      = (if flags = 0 then st.trace ++ [⟨RtCall.rtGetDevice, ⟨E.RT_ERROR_NONE, d⟩⟩]
         else st.trace) := by
  by_cases hflags : flags = 0 <;>
    simp [aclrtDeviceEnablePeerAccess, rtInvoke, hcur, hflags]

/-- Witness for the amended C1: device 2, `flags = 0`, on the runtime whose current
device is 2. -/
theorem enable_self_peer_witness :
    (aclrtDeviceEnablePeerAccess sampleEnv okRuntime 2 0 initState).1
      = (if (0 : Nat) = 0 then aclError.ACL_ERROR_INVALID_PARAM
         else aclError.ACL_ERROR_FEATURE_UNSUPPORTED) ∧
    (aclrtDeviceEnablePeerAccess sampleEnv okRuntime 2 0 initState).2.trace
      = (if (0 : Nat) = 0 then
          initState.trace ++ [⟨RtCall.rtGetDevice, ⟨sampleEnv.RT_ERROR_NONE, 2⟩⟩]
         else initState.trace) :=
  enable_self_peer sampleEnv okRuntime 2 0 initState rfl

/-- C4: `MemcpyKindTranslate` returns `ACL_SUCCESS` and the corresponding runtime kind
for each of the four defined copy kinds; for every other integer it returns
`ACL_ERROR_INVALID_PARAM`, and then `aclrtMemcpy` and `aclrtMemcpyAsync` with non-null
`dst` and `src` return `ACL_ERROR_INVALID_PARAM` and leave the state as it was (neither
`rtMemcpy` nor `rtMemcpyAsync` is called). -/
theorem memcpy_kind_translate (E : Env) (rtKind : Int) (hdist : E.MemcpyKindsDistinct) :
    MemcpyKindTranslate E E.ACL_MEMCPY_HOST_TO_HOST rtKind
      = (aclError.ACL_SUCCESS, E.RT_MEMCPY_HOST_TO_HOST) ∧
    MemcpyKindTranslate E E.ACL_MEMCPY_HOST_TO_DEVICE rtKind
      = (aclError.ACL_SUCCESS, E.RT_MEMCPY_HOST_TO_DEVICE) ∧
    MemcpyKindTranslate E E.ACL_MEMCPY_DEVICE_TO_HOST rtKind
      = (aclError.ACL_SUCCESS, E.RT_MEMCPY_DEVICE_TO_HOST) ∧
    MemcpyKindTranslate E E.ACL_MEMCPY_DEVICE_TO_DEVICE rtKind
      = (aclError.ACL_SUCCESS, E.RT_MEMCPY_DEVICE_TO_DEVICE) ∧
    ∀ kind : Int, kind ∉ E.memcpyKinds →
      (MemcpyKindTranslate E kind rtKind).1 = aclError.ACL_ERROR_INVALID_PARAM ∧
      ∀ (rt : Runtime) (dst destMax src count stream : Nat) (st : AclState),
        dst ≠ nullptr → src ≠ nullptr →
        aclrtMemcpy E rt dst destMax src count kind st
          = (aclError.ACL_ERROR_INVALID_PARAM, st) ∧
        aclrtMemcpyAsync E rt dst destMax src count kind stream st
          = (aclError.ACL_ERROR_INVALID_PARAM, st) := by
  simp only [Env.MemcpyKindsDistinct, Env.memcpyKinds, List.nodup_cons, List.mem_cons,
    List.mem_singleton, List.not_mem_nil, not_or, not_false_eq_true, List.nodup_nil,
    and_true] at hdist
  obtain ⟨⟨h01, h02, h03⟩, ⟨h12, h13⟩, h23⟩ := hdist
  refine ⟨?_, ?_, ?_, ?_, ?_⟩
  · simp [MemcpyKindTranslate]
  · simp [MemcpyKindTranslate, Ne.symm h01]
  · simp [MemcpyKindTranslate, Ne.symm h02, Ne.symm h12]
  · simp [MemcpyKindTranslate, Ne.symm h03, Ne.symm h13, Ne.symm h23]
  · intro kind hkind
    simp only [Env.memcpyKinds, List.mem_cons, List.mem_singleton, List.not_mem_nil,
      or_false, not_or] at hkind
    obtain ⟨k0, k1, k2, k3⟩ := hkind
    refine ⟨by simp [MemcpyKindTranslate, k0, k1, k2, k3], ?_⟩
    intro rt dst destMax src count stream st hdst hsrc
    simp [aclrtMemcpy, aclrtMemcpyAsync, MemcpyKindTranslate, k0, k1, k2, k3, hdst, hsrc]

/-- Witness for C4: the sample environment; the undefined kind 7 with `dst = 4096`,
`src = 8192` on the initial state. -/
theorem memcpy_kind_translate_witness :
    (MemcpyKindTranslate sampleEnv 0 8 = (aclError.ACL_SUCCESS, 0) ∧
      MemcpyKindTranslate sampleEnv 1 8 = (aclError.ACL_SUCCESS, 1) ∧
      MemcpyKindTranslate sampleEnv 2 8 = (aclError.ACL_SUCCESS, 2) ∧
      MemcpyKindTranslate sampleEnv 3 8 = (aclError.ACL_SUCCESS, 3)) ∧
    (MemcpyKindTranslate sampleEnv 7 8).1 = aclError.ACL_ERROR_INVALID_PARAM ∧
    aclrtMemcpy sampleEnv okRuntime 4096 64 8192 64 7 initState
      = (aclError.ACL_ERROR_INVALID_PARAM, initState) ∧
    aclrtMemcpyAsync sampleEnv okRuntime 4096 64 8192 64 7 0 initState
      = (aclError.ACL_ERROR_INVALID_PARAM, initState) :=
  have h := memcpy_kind_translate sampleEnv 8 (by decide)
  have h7 := h.2.2.2.2 7 (by decide)
  ⟨⟨h.1, h.2.1, h.2.2.1, h.2.2.2.1⟩, h7.1,
    h7.2 okRuntime 4096 64 8192 64 0 initState (by decide) (by decide)⟩

/-- What `aclrtMemcpy` does with the capacity, for non-null `dst` and `src` and a defined
copy kind: it makes no capacity check of its own, calls `rtMemcpy` once with `destMax`
and `count` as given, and returns `ACL_SUCCESS` when `rtMemcpy` reports `RT_ERROR_NONE`
and the translated runtime status otherwise. -/
theorem memcpy_delegates_capacity (E : Env) (rt : Runtime) (dst destMax src count : Nat)
    (kind : Int) (st : AclState) (hdst : dst ≠ nullptr) (hsrc : src ≠ nullptr)
    (hkind : kind ∈ E.memcpyKinds) :
    (aclrtMemcpy E rt dst destMax src count kind st).2.trace
      = st.trace ++
          [⟨RtCall.rtMemcpy dst destMax src count
              (MemcpyKindTranslate E kind E.RT_MEMCPY_RESERVED).2,
            rt st.trace (RtCall.rtMemcpy dst destMax src count
              (MemcpyKindTranslate E kind E.RT_MEMCPY_RESERVED).2)⟩] ∧
    (aclrtMemcpy E rt dst destMax src count kind st).1
      = (if (rt st.trace (RtCall.rtMemcpy dst destMax src count
              (MemcpyKindTranslate E kind E.RT_MEMCPY_RESERVED).2)).status
            = E.RT_ERROR_NONE
         then aclError.ACL_SUCCESS
         else ACL_GET_ERRCODE_RTS
          (rt st.trace (RtCall.rtMemcpy dst destMax src count
              (MemcpyKindTranslate E kind E.RT_MEMCPY_RESERVED).2)).status) := by
  have hok : (MemcpyKindTranslate E kind E.RT_MEMCPY_RESERVED).1 = aclError.ACL_SUCCESS := by
    simp only [Env.memcpyKinds, List.mem_cons, List.mem_singleton, List.not_mem_nil,
      or_false] at hkind
    unfold MemcpyKindTranslate
    split_ifs <;> first | rfl | (exfalso; tauto)
  by_cases hst : (rt st.trace (RtCall.rtMemcpy dst destMax src count
      (MemcpyKindTranslate E kind E.RT_MEMCPY_RESERVED).2)).status = E.RT_ERROR_NONE <;>
    simp [aclrtMemcpy, rtInvoke, hdst, hsrc, hok, hst, ACL_GET_ERRCODE_RTS]

/-- C9: on a runtime whose `rtMemcpy` checks the capacity, for every non-null `dst` and
`src`, every defined copy kind and every `destMax < count`, `aclrtMemcpy` returns a
non-success status, namely the translated status of the runtime's rejection; the copy is
not carried out truncated, since the one runtime call made is `rtMemcpy` with `destMax`
and `count` exactly as given. -/
theorem memcpy_capacity_violation_fails (E : Env) (rt : Runtime)
    (dst destMax src count : Nat) (kind : Int) (st : AclState)
    (hrt : RuntimeChecksCapacity E rt) (hdst : dst ≠ nullptr) (hsrc : src ≠ nullptr)
    (hkind : kind ∈ E.memcpyKinds) (hlt : destMax < count) :
    (aclrtMemcpy E rt dst destMax src count kind st).1 ≠ aclError.ACL_SUCCESS ∧
    (aclrtMemcpy E rt dst destMax src count kind st).1
      = ACL_GET_ERRCODE_RTS
          (rt st.trace (RtCall.rtMemcpy dst destMax src count
            (MemcpyKindTranslate E kind E.RT_MEMCPY_RESERVED).2)).status ∧
    (aclrtMemcpy E rt dst destMax src count kind st).2.trace
      = st.trace ++
          [⟨RtCall.rtMemcpy dst destMax src count
              (MemcpyKindTranslate E kind E.RT_MEMCPY_RESERVED).2,
            rt st.trace (RtCall.rtMemcpy dst destMax src count
              (MemcpyKindTranslate E kind E.RT_MEMCPY_RESERVED).2)⟩] := by
  have hfail := hrt st.trace dst destMax src count
    (MemcpyKindTranslate E kind E.RT_MEMCPY_RESERVED).2 hlt
  obtain ⟨htrace, hres⟩ :=
    memcpy_delegates_capacity E rt dst destMax src count kind st hdst hsrc hkind
  rw [if_neg hfail] at hres
  exact ⟨by rw [hres]; simp [ACL_GET_ERRCODE_RTS], hres, htrace⟩

/-- Witness for C9: `destMax = 16 < count = 32`, host-to-device, on the runtime whose
`rtMemcpy` checks the capacity (and which carries out the same copy when the capacity is
32). -/
theorem memcpy_capacity_violation_fails_witness :
    ((16 : Nat) < 32 ∧
      aclrtMemcpy sampleEnv capacityCheckingRuntime 4096 32 8192 32 1 initState
        = (aclError.ACL_SUCCESS,
            ⟨[⟨RtCall.rtMemcpy 4096 32 8192 32 1, ⟨0, 0⟩⟩], zeroStatistics⟩)) ∧
    (aclrtMemcpy sampleEnv capacityCheckingRuntime 4096 16 8192 32 1 initState).1
      ≠ aclError.ACL_SUCCESS ∧
    (aclrtMemcpy sampleEnv capacityCheckingRuntime 4096 16 8192 32 1 initState).1
      = ACL_GET_ERRCODE_RTS
          (capacityCheckingRuntime initState.trace (RtCall.rtMemcpy 4096 16 8192 32
            (MemcpyKindTranslate sampleEnv 1 sampleEnv.RT_MEMCPY_RESERVED).2)).status ∧
    (aclrtMemcpy sampleEnv capacityCheckingRuntime 4096 16 8192 32 1 initState).2.trace
      = initState.trace ++
          [⟨RtCall.rtMemcpy 4096 16 8192 32
              (MemcpyKindTranslate sampleEnv 1 sampleEnv.RT_MEMCPY_RESERVED).2,
            capacityCheckingRuntime initState.trace (RtCall.rtMemcpy 4096 16 8192 32
              (MemcpyKindTranslate sampleEnv 1 sampleEnv.RT_MEMCPY_RESERVED).2)⟩] :=
  ⟨by decide,
    memcpy_capacity_violation_fails sampleEnv capacityCheckingRuntime 4096 16 8192 32 1
      initState
      (by
        intro history dst destMax src count kind hlt
        simp [capacityCheckingRuntime, hlt, sampleEnv])
      (by decide) (by decide) (by decide) (by decide)⟩

/-- C2, the code at the failing input: `aclrtDeviceCanAccessPeer(nullptr, 0, 1)` is not
rejected.  It invokes `rtGetDevicePhyIdByIndex(1)` and then
`rtDeviceCanAccessPeer(nullptr, 0, 101)`, handing the null output location to the
runtime, and returns `ACL_SUCCESS` when the runtime reports success. -/
theorem canAccessPeer_null_output_reaches_runtime :
    aclrtDeviceCanAccessPeer sampleEnv okRuntime nullptr 0 1 initState
      = (aclError.ACL_SUCCESS,
          ⟨[⟨RtCall.rtGetDevicePhyIdByIndex 1, ⟨0, 101⟩⟩,
            ⟨RtCall.rtDeviceCanAccessPeer nullptr 0 101, ⟨0, 0⟩⟩],
           zeroStatistics⟩) := by
  decide

/-- The null check that `aclrtDeviceCanAccessPeer` lacks is made by every other
operation on each of its pointer arguments (`devPtr`, `hostPtr`, `dst`, `src`, `free`,
`total`): the result is `ACL_ERROR_INVALID_PARAM` and no runtime primitive is invoked. -/
theorem null_pointer_rejected_elsewhere (E : Env) (rt : Runtime) (p n m k : Nat)
    (v : Int) (st : AclState) :
    ((aclrtMalloc E rt nullptr n v st).1 = aclError.ACL_ERROR_INVALID_PARAM ∧
      (aclrtMalloc E rt nullptr n v st).2.trace = st.trace) ∧
    ((aclrtMallocCached E rt nullptr n v st).1 = aclError.ACL_ERROR_INVALID_PARAM ∧
      (aclrtMallocCached E rt nullptr n v st).2.trace = st.trace) ∧
    aclrtMemFlush E rt nullptr n st = (aclError.ACL_ERROR_INVALID_PARAM, st) ∧
    aclrtMemInvalidate E rt nullptr n st = (aclError.ACL_ERROR_INVALID_PARAM, st) ∧
    ((aclrtFree E rt nullptr st).1 = aclError.ACL_ERROR_INVALID_PARAM ∧
      (aclrtFree E rt nullptr st).2.trace = st.trace) ∧
    ((aclrtMallocHost E rt nullptr n st).1 = aclError.ACL_ERROR_INVALID_PARAM ∧
      (aclrtMallocHost E rt nullptr n st).2.trace = st.trace) ∧
    ((aclrtFreeHost E rt nullptr st).1 = aclError.ACL_ERROR_INVALID_PARAM ∧
      (aclrtFreeHost E rt nullptr st).2.trace = st.trace) ∧
    aclrtMemcpy E rt nullptr n p m v st = (aclError.ACL_ERROR_INVALID_PARAM, st) ∧
    aclrtMemcpy E rt p n nullptr m v st = (aclError.ACL_ERROR_INVALID_PARAM, st) ∧
    aclrtMemset E rt nullptr n v m st = (aclError.ACL_ERROR_INVALID_PARAM, st) ∧
    aclrtMemcpyAsync E rt nullptr n p m v k st = (aclError.ACL_ERROR_INVALID_PARAM, st) ∧
    aclrtMemcpyAsync E rt p n nullptr m v k st = (aclError.ACL_ERROR_INVALID_PARAM, st) ∧
    aclrtMemsetAsync E rt nullptr n v m k st = (aclError.ACL_ERROR_INVALID_PARAM, st) ∧
    aclrtGetMemInfo E rt v nullptr p st = (aclError.ACL_ERROR_INVALID_PARAM, st) ∧
    aclrtGetMemInfo E rt v p nullptr st = (aclError.ACL_ERROR_INVALID_PARAM, st) := by
  simp [aclrtMalloc, aclrtMallocCached, aclrtMemFlush, aclrtMemInvalidate, aclrtFree,
    aclrtMallocHost, aclrtFreeHost, aclrtMemcpy, aclrtMemset, aclrtMemcpyAsync,
    aclrtMemsetAsync, aclrtGetMemInfo, ACL_ADD_APPLY_TOTAL_COUNT,
    ACL_ADD_RELEASE_TOTAL_COUNT]

/-- C7, the code at the failing input: for the policy `ACL_MEM_MALLOC_HUGE_FIRST_P2P`
`aclrtMalloc` hands `rtMalloc` the flags
`RT_MEMORY_DEFAULT | RT_MEMORY_POLICY_HUGE_PAGE_FIRST_P2P`, while `aclrtMallocCached`
hands `rtMallocCached` `RT_MEMORY_DEFAULT` alone. -/
theorem mallocCached_drops_p2p_flag :
    (aclrtMalloc sampleEnv okRuntime 4096 1 sampleEnv.ACL_MEM_MALLOC_HUGE_FIRST_P2P
        initState).2.trace
      = [⟨RtCall.rtMalloc 4096 64
            (sampleEnv.RT_MEMORY_DEFAULT ||| sampleEnv.RT_MEMORY_POLICY_HUGE_PAGE_FIRST_P2P),
          ⟨0, 0⟩⟩] ∧
    (aclrtMallocCached sampleEnv okRuntime 4096 1 sampleEnv.ACL_MEM_MALLOC_HUGE_FIRST_P2P
        initState).2.trace
      = [⟨RtCall.rtMallocCached 4096 64 sampleEnv.RT_MEMORY_DEFAULT, ⟨0, 0⟩⟩] ∧
    sampleEnv.RT_MEMORY_DEFAULT ||| sampleEnv.RT_MEMORY_POLICY_HUGE_PAGE_FIRST_P2P
      ≠ sampleEnv.RT_MEMORY_DEFAULT := by
  decide

/-- In any environment, `aclrtMallocCached` passes `RT_MEMORY_DEFAULT` alone for every
policy other than the three non-P2P ones, hence for each P2P-qualified policy. -/
theorem mallocCached_other_policy_flags (E : Env) (rt : Runtime) (devPtr size : Nat)
    (policy : Int) (st : AclState) (hptr : devPtr ≠ nullptr) (hsize : size ≠ 0)
    (halign : (E.GetAlignedSize size).1 = aclError.ACL_SUCCESS)
    (hne : policy ∉ [E.ACL_MEM_MALLOC_HUGE_FIRST, E.ACL_MEM_MALLOC_HUGE_ONLY,
      E.ACL_MEM_MALLOC_NORMAL_ONLY]) :
    (aclrtMallocCached E rt devPtr size policy st).2.trace
      = st.trace ++
          [⟨RtCall.rtMallocCached devPtr (E.GetAlignedSize size).2 E.RT_MEMORY_DEFAULT,
            rt st.trace
              (RtCall.rtMallocCached devPtr (E.GetAlignedSize size).2 E.RT_MEMORY_DEFAULT)⟩] := by
  simp only [List.mem_cons, List.mem_singleton, List.not_mem_nil, or_false, not_or] at hne
  obtain ⟨n0, n1, n2⟩ := hne
  simp only [aclrtMallocCached, rtInvoke, ACL_ADD_APPLY_TOTAL_COUNT,
    ACL_ADD_APPLY_SUCCESS_COUNT]
  split_ifs <;> simp_all

/-- What one allocation call does to the counters of its category `t`: the attempt is
always counted, the success exactly when the result `r` is `ACL_SUCCESS`. -/
theorem malloc_outcome (E : Env) (rt : Runtime) (devPtr size : Nat) (policy : Int)
    (st : AclState) :
    ((aclrtMalloc E rt devPtr size policy st).1 ≠ aclError.ACL_SUCCESS ∧
      (aclrtMalloc E rt devPtr size policy st).2.stats
        = (ACL_ADD_APPLY_TOTAL_COUNT aclStatisticsType.ACL_STATISTICS_MALLOC_FREE st).stats) ∨
    ((aclrtMalloc E rt devPtr size policy st).1 = aclError.ACL_SUCCESS ∧
      (aclrtMalloc E rt devPtr size policy st).2.stats
        = (ACL_ADD_APPLY_SUCCESS_COUNT aclStatisticsType.ACL_STATISTICS_MALLOC_FREE
            (ACL_ADD_APPLY_TOTAL_COUNT aclStatisticsType.ACL_STATISTICS_MALLOC_FREE
              st)).stats) := by
  unfold aclrtMalloc
  by_cases h1 : devPtr = nullptr
  · simp [h1]
  by_cases h2 : size = 0
  · simp [h1, h2]
  by_cases h3 : (E.GetAlignedSize size).1 = aclError.ACL_SUCCESS
  · simp only [h1, h2, h3, if_false, ne_eq, not_true_eq_false]
    generalize (if policy = E.ACL_MEM_MALLOC_HUGE_FIRST then _ else _) = flags
    by_cases h4 : (rt
        (ACL_ADD_APPLY_TOTAL_COUNT aclStatisticsType.ACL_STATISTICS_MALLOC_FREE st).trace
        (RtCall.rtMalloc devPtr (E.GetAlignedSize size).2 flags)).status = E.RT_ERROR_NONE
    · simp [rtInvoke, h4, ACL_ADD_APPLY_SUCCESS_COUNT]
    · simp [rtInvoke, h4, ACL_GET_ERRCODE_RTS]
  · simp [h1, h2, h3]

/-- The counters after one `aclrtMallocCached` call. -/
theorem mallocCached_outcome (E : Env) (rt : Runtime) (devPtr size : Nat) (policy : Int)
    (st : AclState) :
    ((aclrtMallocCached E rt devPtr size policy st).1 ≠ aclError.ACL_SUCCESS ∧
      (aclrtMallocCached E rt devPtr size policy st).2.stats
        = (ACL_ADD_APPLY_TOTAL_COUNT aclStatisticsType.ACL_STATISTICS_MALLOC_FREE st).stats) ∨
    ((aclrtMallocCached E rt devPtr size policy st).1 = aclError.ACL_SUCCESS ∧
      (aclrtMallocCached E rt devPtr size policy st).2.stats
        = (ACL_ADD_APPLY_SUCCESS_COUNT aclStatisticsType.ACL_STATISTICS_MALLOC_FREE
            (ACL_ADD_APPLY_TOTAL_COUNT aclStatisticsType.ACL_STATISTICS_MALLOC_FREE
              st)).stats) := by
  unfold aclrtMallocCached
  by_cases h1 : devPtr = nullptr
  · simp [h1]
  by_cases h2 : size = 0
  · simp [h1, h2]
  by_cases h3 : (E.GetAlignedSize size).1 = aclError.ACL_SUCCESS
  · simp only [h1, h2, h3, if_false, ne_eq, not_true_eq_false]
    generalize (if policy = E.ACL_MEM_MALLOC_HUGE_FIRST then _ else _) = flags
    by_cases h4 : (rt
        (ACL_ADD_APPLY_TOTAL_COUNT aclStatisticsType.ACL_STATISTICS_MALLOC_FREE st).trace
        (RtCall.rtMallocCached devPtr (E.GetAlignedSize size).2 flags)).status
          = E.RT_ERROR_NONE
    · simp [rtInvoke, h4, ACL_ADD_APPLY_SUCCESS_COUNT]
    · simp [rtInvoke, h4, ACL_GET_ERRCODE_RTS]
  · simp [h1, h2, h3]

/-- The counters after one `aclrtMallocHost` call. -/
theorem mallocHost_outcome (E : Env) (rt : Runtime) (hostPtr size : Nat) (st : AclState) :
    ((aclrtMallocHost E rt hostPtr size st).1 ≠ aclError.ACL_SUCCESS ∧
      (aclrtMallocHost E rt hostPtr size st).2.stats
        = (ACL_ADD_APPLY_TOTAL_COUNT aclStatisticsType.ACL_STATISTICS_MALLOC_FREE_HOST
            st).stats) ∨
    ((aclrtMallocHost E rt hostPtr size st).1 = aclError.ACL_SUCCESS ∧
      (aclrtMallocHost E rt hostPtr size st).2.stats
        = (ACL_ADD_APPLY_SUCCESS_COUNT aclStatisticsType.ACL_STATISTICS_MALLOC_FREE_HOST
            (ACL_ADD_APPLY_TOTAL_COUNT aclStatisticsType.ACL_STATISTICS_MALLOC_FREE_HOST
              st)).stats) := by
  unfold aclrtMallocHost
  by_cases h1 : hostPtr = nullptr
  · simp [h1]
  by_cases h2 : size = 0
  · simp [h1, h2]
  by_cases h4 : (rt
      (ACL_ADD_APPLY_TOTAL_COUNT aclStatisticsType.ACL_STATISTICS_MALLOC_FREE_HOST st).trace
      (RtCall.rtMallocHost hostPtr size)).status = E.RT_ERROR_NONE
  · simp [h1, h2, rtInvoke, h4, ACL_ADD_APPLY_SUCCESS_COUNT]
  · simp [h1, h2, rtInvoke, h4, ACL_GET_ERRCODE_RTS]

/-- The counters after one `aclrtFree` call. -/
theorem free_outcome (E : Env) (rt : Runtime) (devPtr : Nat) (st : AclState) :
    (aclrtFree E rt devPtr st).2.stats
        = (ACL_ADD_RELEASE_TOTAL_COUNT aclStatisticsType.ACL_STATISTICS_MALLOC_FREE st).stats ∨
    (aclrtFree E rt devPtr st).2.stats
        = (ACL_ADD_RELEASE_SUCCESS_COUNT aclStatisticsType.ACL_STATISTICS_MALLOC_FREE
            (ACL_ADD_RELEASE_TOTAL_COUNT aclStatisticsType.ACL_STATISTICS_MALLOC_FREE
              st)).stats := by
  unfold aclrtFree
  by_cases h1 : devPtr = nullptr
  · simp [h1]
  by_cases h4 : (rt
      (ACL_ADD_RELEASE_TOTAL_COUNT aclStatisticsType.ACL_STATISTICS_MALLOC_FREE st).trace
      (RtCall.rtFree devPtr)).status = E.RT_ERROR_NONE
  · simp [h1, rtInvoke, h4, ACL_ADD_RELEASE_SUCCESS_COUNT]
  · simp [h1, rtInvoke, h4]

/-- The counters after one `aclrtFreeHost` call. -/
theorem freeHost_outcome (E : Env) (rt : Runtime) (hostPtr : Nat) (st : AclState) :
    (aclrtFreeHost E rt hostPtr st).2.stats
        = (ACL_ADD_RELEASE_TOTAL_COUNT aclStatisticsType.ACL_STATISTICS_MALLOC_FREE_HOST
            st).stats ∨
    (aclrtFreeHost E rt hostPtr st).2.stats
        = (ACL_ADD_RELEASE_SUCCESS_COUNT aclStatisticsType.ACL_STATISTICS_MALLOC_FREE_HOST
            (ACL_ADD_RELEASE_TOTAL_COUNT aclStatisticsType.ACL_STATISTICS_MALLOC_FREE_HOST
              st)).stats := by
  unfold aclrtFreeHost
  by_cases h1 : hostPtr = nullptr
  · simp [h1]
  by_cases h4 : (rt
      (ACL_ADD_RELEASE_TOTAL_COUNT aclStatisticsType.ACL_STATISTICS_MALLOC_FREE_HOST
        st).trace
      (RtCall.rtFreeHost hostPtr)).status = E.RT_ERROR_NONE
  · simp [h1, rtInvoke, h4, ACL_ADD_RELEASE_SUCCESS_COUNT]
  · simp [h1, rtInvoke, h4]

/-- Each allocation or release call keeps successes at or below attempts. -/
theorem exec_preserves_consistency (E : Env) (rt : Runtime) (c : AllocCall) (st : AclState)
    (h : StatsConsistent st.stats) : StatsConsistent (c.exec E rt st).2.stats := by
  intro t
  have h0 := h aclStatisticsType.ACL_STATISTICS_MALLOC_FREE
  have h1 := h aclStatisticsType.ACL_STATISTICS_MALLOC_FREE_HOST
  simp only [ResourceStatistics.get] at h0 h1
  cases c with
  | malloc devPtr size policy =>
    rcases malloc_outcome E rt devPtr size policy st with ⟨_, e⟩ | ⟨_, e⟩ <;>
      cases t <;>
      simp [AllocCall.exec, e, ResourceStatistics.get, ResourceStatistics.modify,
        ACL_ADD_APPLY_TOTAL_COUNT, ACL_ADD_APPLY_SUCCESS_COUNT] <;> omega
  | mallocCached devPtr size policy =>
    rcases mallocCached_outcome E rt devPtr size policy st with ⟨_, e⟩ | ⟨_, e⟩ <;>
      cases t <;>
      simp [AllocCall.exec, e, ResourceStatistics.get, ResourceStatistics.modify,
        ACL_ADD_APPLY_TOTAL_COUNT, ACL_ADD_APPLY_SUCCESS_COUNT] <;> omega
  | mallocHost hostPtr size =>
    rcases mallocHost_outcome E rt hostPtr size st with ⟨_, e⟩ | ⟨_, e⟩ <;>
      cases t <;>
      simp [AllocCall.exec, e, ResourceStatistics.get, ResourceStatistics.modify,
        ACL_ADD_APPLY_TOTAL_COUNT, ACL_ADD_APPLY_SUCCESS_COUNT] <;> omega
  | free devPtr =>
    rcases free_outcome E rt devPtr st with e | e <;>
      cases t <;>
      simp [AllocCall.exec, e, ResourceStatistics.get, ResourceStatistics.modify,
        ACL_ADD_RELEASE_TOTAL_COUNT, ACL_ADD_RELEASE_SUCCESS_COUNT] <;> omega
  | freeHost hostPtr =>
    rcases freeHost_outcome E rt hostPtr st with e | e <;>
      cases t <;>
      simp [AllocCall.exec, e, ResourceStatistics.get, ResourceStatistics.modify,
        ACL_ADD_RELEASE_TOTAL_COUNT, ACL_ADD_RELEASE_SUCCESS_COUNT] <;> omega

/-- Consistency of the counters survives any sequence of calls. -/
theorem runCalls_preserves_consistency (E : Env) (rt : Runtime) (calls : List AllocCall) :
    ∀ st : AclState, StatsConsistent st.stats →
      StatsConsistent (runCalls E rt calls st).stats := by
  induction calls with
  | nil => intro st h; exact h
  | cons c rest ih =>
    intro st h
    exact ih _ (exec_preserves_consistency E rt c st h)

/-- C8: starting from zeroed counters, after any sequence of `aclrtMalloc`,
`aclrtMallocCached`, `aclrtMallocHost`, `aclrtFree` and `aclrtFreeHost` calls with any
arguments, against any runtime, every category has attempted-allocate count at least the
succeeded-allocate count and attempted-release count at least the succeeded-release
count; and one further allocate call of any of the three kinds changes the
succeeded-allocate counts by exactly 1 in its own category when it returns `ACL_SUCCESS`
and not at all when it returns an error. -/
theorem accounting_invariant (E : Env) (rt : Runtime) (tr : List RtEvent)
    (calls : List AllocCall) (ptr size : Nat) (policy : Int) (t : aclStatisticsType) :
    StatsConsistent (runCalls E rt calls ⟨tr, zeroStatistics⟩).stats ∧
    ((aclrtMalloc E rt ptr size policy
        (runCalls E rt calls ⟨tr, zeroStatistics⟩)).2.stats.get t).applySuccess
      = ((runCalls E rt calls ⟨tr, zeroStatistics⟩).stats.get t).applySuccess +
          (if t = aclStatisticsType.ACL_STATISTICS_MALLOC_FREE ∧
              (aclrtMalloc E rt ptr size policy
                (runCalls E rt calls ⟨tr, zeroStatistics⟩)).1 = aclError.ACL_SUCCESS
           then 1 else 0) ∧
    ((aclrtMallocCached E rt ptr size policy
        (runCalls E rt calls ⟨tr, zeroStatistics⟩)).2.stats.get t).applySuccess
      = ((runCalls E rt calls ⟨tr, zeroStatistics⟩).stats.get t).applySuccess +
          (if t = aclStatisticsType.ACL_STATISTICS_MALLOC_FREE ∧
              (aclrtMallocCached E rt ptr size policy
                (runCalls E rt calls ⟨tr, zeroStatistics⟩)).1 = aclError.ACL_SUCCESS
           then 1 else 0) ∧
    ((aclrtMallocHost E rt ptr size
        (runCalls E rt calls ⟨tr, zeroStatistics⟩)).2.stats.get t).applySuccess
      = ((runCalls E rt calls ⟨tr, zeroStatistics⟩).stats.get t).applySuccess +
          (if t = aclStatisticsType.ACL_STATISTICS_MALLOC_FREE_HOST ∧
              (aclrtMallocHost E rt ptr size
                (runCalls E rt calls ⟨tr, zeroStatistics⟩)).1 = aclError.ACL_SUCCESS
           then 1 else 0) := by
  refine ⟨runCalls_preserves_consistency E rt calls _ ?_, ?_, ?_, ?_⟩
  · intro c
    cases c <;> simp [zeroStatistics, ResourceStatistics.get]
  · generalize runCalls E rt calls ⟨tr, zeroStatistics⟩ = st
    rcases malloc_outcome E rt ptr size policy st with ⟨r, e⟩ | ⟨r, e⟩ <;> cases t <;>
      simp [e, r, ResourceStatistics.get, ResourceStatistics.modify,
        ACL_ADD_APPLY_TOTAL_COUNT, ACL_ADD_APPLY_SUCCESS_COUNT]
  · generalize runCalls E rt calls ⟨tr, zeroStatistics⟩ = st
    rcases mallocCached_outcome E rt ptr size policy st with ⟨r, e⟩ | ⟨r, e⟩ <;> cases t <;>
      simp [e, r, ResourceStatistics.get, ResourceStatistics.modify,
        ACL_ADD_APPLY_TOTAL_COUNT, ACL_ADD_APPLY_SUCCESS_COUNT]
  · generalize runCalls E rt calls ⟨tr, zeroStatistics⟩ = st
    rcases mallocHost_outcome E rt ptr size st with ⟨r, e⟩ | ⟨r, e⟩ <;> cases t <;>
      simp [e, r, ResourceStatistics.get, ResourceStatistics.modify,
        ACL_ADD_APPLY_TOTAL_COUNT, ACL_ADD_APPLY_SUCCESS_COUNT]

/-- The counters on a concrete run: two device allocations of which one is rejected for
its null pointer, a host allocation, and a release of each kind. -/
theorem accounting_example :
    (runCalls sampleEnv okRuntime
        [AllocCall.malloc 4096 16 0, AllocCall.mallocCached 0 16 0,
          AllocCall.mallocHost 8192 16, AllocCall.free 4096, AllocCall.freeHost 0]
        initState).stats
      = ⟨⟨2, 1, 1, 1⟩, ⟨1, 1, 1, 0⟩⟩ := by
  decide

/-- A reply with a known status is that status paired with its output value. -/
theorem RtReply.eq_of_status (r : RtReply) (s : Int) (h : r.status = s) :
    r = ⟨s, r.out⟩ := by
  cases r
  simp_all

/-- The runtime calls of one `aclrtDeviceCanAccessPeer`: if `rtDeviceCanAccessPeer` is
among them, they are a successful resolution of the peer followed by
`rtDeviceCanAccessPeer` on the caller's device id and the resolved physical id; a failed
resolution ends the call. -/
theorem canAccessPeer_guarded (E : Env) (rt : Runtime) (canAccessPeer : Nat)
    (deviceId peerDeviceId : Int) (st : AclState) :
    ∃ new : List RtEvent,
      (aclrtDeviceCanAccessPeer E rt canAccessPeer deviceId peerDeviceId st).2.trace
        = st.trace ++ new ∧
      (∀ ev ∈ new, ev.call.isPeerPrimitive = true →
        ∃ (phyId : Int) (reply : RtReply),
          new = [⟨RtCall.rtGetDevicePhyIdByIndex (toUInt32 peerDeviceId),
                  ⟨E.RT_ERROR_NONE, phyId⟩⟩,
                 ⟨RtCall.rtDeviceCanAccessPeer canAccessPeer (toUInt32 deviceId) phyId,
                  reply⟩]) ∧
      ResolutionFailureStops E
        (aclrtDeviceCanAccessPeer E rt canAccessPeer deviceId peerDeviceId st).1 new := by
  simp only [aclrtDeviceCanAccessPeer, rtInvoke]
  generalize hr1 : rt st.trace (RtCall.rtGetDevicePhyIdByIndex (toUInt32 peerDeviceId)) = r1
  generalize hr2 : rt
    (st.trace ++ [⟨RtCall.rtGetDevicePhyIdByIndex (toUInt32 peerDeviceId), r1⟩])
    (RtCall.rtDeviceCanAccessPeer canAccessPeer (toUInt32 deviceId) r1.out) = r2
  by_cases h : deviceId = peerDeviceId
  · exact ⟨[], by simp [h], by simp, by simp [ResolutionFailureStops]⟩
  by_cases h1 : r1.status = E.RT_ERROR_NONE
  · refine ⟨[⟨RtCall.rtGetDevicePhyIdByIndex (toUInt32 peerDeviceId), r1⟩,
        ⟨RtCall.rtDeviceCanAccessPeer canAccessPeer (toUInt32 deviceId) r1.out, r2⟩],
      ?_, ?_, ?_⟩
    · simp only [h, h1, if_false, ne_eq, not_true_eq_false]
      split_ifs <;> simp
    · intro ev _ _
      exact ⟨r1.out, r2, by rw [← RtReply.eq_of_status _ _ h1]⟩
    · intro index reply hmem hst
      simp at hmem
      exact absurd (hmem.2 ▸ h1) hst
  · refine ⟨[⟨RtCall.rtGetDevicePhyIdByIndex (toUInt32 peerDeviceId), r1⟩], ?_, ?_, ?_⟩
    · simp [h, h1]
    · simp [RtCall.isPeerPrimitive]
    · intro index reply hmem hst
      simp at hmem
      simp [h, h1, hmem.2, RtCall.isPeerPrimitive]

/-- The runtime calls of one `aclrtDeviceEnablePeerAccess`: if `rtEnableP2P` is among
them, they are a successful `rtGetDevice`, a successful resolution of the peer, and
`rtEnableP2P` on the reported current device and the resolved physical id; a failed
resolution ends the call. -/
theorem enablePeerAccess_guarded (E : Env) (rt : Runtime) (peerDeviceId : Int) (flags : Nat)
    (st : AclState) :
    ∃ new : List RtEvent,
      (aclrtDeviceEnablePeerAccess E rt peerDeviceId flags st).2.trace = st.trace ++ new ∧
      (∀ ev ∈ new, ev.call.isPeerPrimitive = true →
        ∃ (current phyId : Int) (reply : RtReply),
          new = [⟨RtCall.rtGetDevice, ⟨E.RT_ERROR_NONE, current⟩⟩,
                 ⟨RtCall.rtGetDevicePhyIdByIndex (toUInt32 peerDeviceId),
                  ⟨E.RT_ERROR_NONE, phyId⟩⟩,
                 ⟨RtCall.rtEnableP2P (toUInt32 current) phyId flags, reply⟩]) ∧
      ResolutionFailureStops E (aclrtDeviceEnablePeerAccess E rt peerDeviceId flags st).1
        new := by
  simp only [aclrtDeviceEnablePeerAccess, rtInvoke]
  by_cases hf : flags = 0
  swap
  · exact ⟨[], by simp [hf], by simp, by simp [ResolutionFailureStops]⟩
  generalize hr0 : rt st.trace RtCall.rtGetDevice = r0
  generalize hr1 : rt (st.trace ++ [⟨RtCall.rtGetDevice, r0⟩])
    (RtCall.rtGetDevicePhyIdByIndex (toUInt32 peerDeviceId)) = r1
  generalize hr2 : rt (st.trace ++ [⟨RtCall.rtGetDevice, r0⟩] ++
      [⟨RtCall.rtGetDevicePhyIdByIndex (toUInt32 peerDeviceId), r1⟩])
    (RtCall.rtEnableP2P (toUInt32 r0.out) r1.out flags) = r2
  by_cases h0 : r0.status = E.RT_ERROR_NONE
  · by_cases hd : r0.out = peerDeviceId
    · refine ⟨[⟨RtCall.rtGetDevice, r0⟩], by simp [hf, h0, hd], ?_, ?_⟩
      · simp [RtCall.isPeerPrimitive]
      · intro index reply hmem
        simp at hmem
    · by_cases h1 : r1.status = E.RT_ERROR_NONE
      · refine ⟨[⟨RtCall.rtGetDevice, r0⟩,
            ⟨RtCall.rtGetDevicePhyIdByIndex (toUInt32 peerDeviceId), r1⟩,
            ⟨RtCall.rtEnableP2P (toUInt32 r0.out) r1.out flags, r2⟩], ?_, ?_, ?_⟩
        · simp only [hf, h0, hd, h1, if_false, ne_eq, not_true_eq_false]
          split_ifs <;> simp
        · intro ev _ _
          exact ⟨r0.out, r1.out, r2, by
            rw [← RtReply.eq_of_status _ _ h0, ← RtReply.eq_of_status _ _ h1]⟩
        · intro index reply hmem hst
          simp at hmem
          exact absurd (hmem.2 ▸ h1) hst
      · refine ⟨[⟨RtCall.rtGetDevice, r0⟩,
            ⟨RtCall.rtGetDevicePhyIdByIndex (toUInt32 peerDeviceId), r1⟩], ?_, ?_, ?_⟩
        · simp [hf, h0, hd, h1]
        · simp [RtCall.isPeerPrimitive]
        · intro index reply hmem hst
          simp at hmem
          simp [hf, h0, hd, h1, hmem.2, RtCall.isPeerPrimitive]
  · refine ⟨[⟨RtCall.rtGetDevice, r0⟩], by simp [hf, h0], ?_, ?_⟩
    · simp [RtCall.isPeerPrimitive]
    · intro index reply hmem
      simp at hmem

/-- The runtime calls of one `aclrtDeviceDisablePeerAccess`: if `rtDisableP2P` is among
them, they are a successful `rtGetDevice`, a successful resolution of the peer, and
`rtDisableP2P` on the reported current device and the resolved physical id; a failed
resolution ends the call. -/
theorem disablePeerAccess_guarded (E : Env) (rt : Runtime) (peerDeviceId : Int)
    (st : AclState) :
    ∃ new : List RtEvent,
      (aclrtDeviceDisablePeerAccess E rt peerDeviceId st).2.trace = st.trace ++ new ∧
      (∀ ev ∈ new, ev.call.isPeerPrimitive = true →
        ∃ (current phyId : Int) (reply : RtReply),
          new = [⟨RtCall.rtGetDevice, ⟨E.RT_ERROR_NONE, current⟩⟩,
                 ⟨RtCall.rtGetDevicePhyIdByIndex (toUInt32 peerDeviceId),
                  ⟨E.RT_ERROR_NONE, phyId⟩⟩,
                 ⟨RtCall.rtDisableP2P (toUInt32 current) phyId, reply⟩]) ∧
      ResolutionFailureStops E (aclrtDeviceDisablePeerAccess E rt peerDeviceId st).1
        new := by
  simp only [aclrtDeviceDisablePeerAccess, rtInvoke]
  generalize hr0 : rt st.trace RtCall.rtGetDevice = r0
  generalize hr1 : rt (st.trace ++ [⟨RtCall.rtGetDevice, r0⟩])
    (RtCall.rtGetDevicePhyIdByIndex (toUInt32 peerDeviceId)) = r1
  generalize hr2 : rt (st.trace ++ [⟨RtCall.rtGetDevice, r0⟩] ++
      [⟨RtCall.rtGetDevicePhyIdByIndex (toUInt32 peerDeviceId), r1⟩])
    (RtCall.rtDisableP2P (toUInt32 r0.out) r1.out) = r2
  by_cases h0 : r0.status = E.RT_ERROR_NONE
  · by_cases hd : r0.out = peerDeviceId
    · refine ⟨[⟨RtCall.rtGetDevice, r0⟩], by simp [h0, hd], ?_, ?_⟩
      · simp [RtCall.isPeerPrimitive]
      · intro index reply hmem
        simp at hmem
    · by_cases h1 : r1.status = E.RT_ERROR_NONE
      · refine ⟨[⟨RtCall.rtGetDevice, r0⟩,
            ⟨RtCall.rtGetDevicePhyIdByIndex (toUInt32 peerDeviceId), r1⟩,
            ⟨RtCall.rtDisableP2P (toUInt32 r0.out) r1.out, r2⟩], ?_, ?_, ?_⟩
        · simp only [h0, hd, h1, if_false, ne_eq, not_true_eq_false]
          split_ifs <;> simp
        · intro ev _ _
          exact ⟨r0.out, r1.out, r2, by
            rw [← RtReply.eq_of_status _ _ h0, ← RtReply.eq_of_status _ _ h1]⟩
        · intro index reply hmem hst
          simp at hmem
          exact absurd (hmem.2 ▸ h1) hst
      · refine ⟨[⟨RtCall.rtGetDevice, r0⟩,
            ⟨RtCall.rtGetDevicePhyIdByIndex (toUInt32 peerDeviceId), r1⟩], ?_, ?_, ?_⟩
        · simp [h0, hd, h1]
        · simp [RtCall.isPeerPrimitive]
        · intro index reply hmem hst
          simp at hmem
          simp [h0, hd, h1, hmem.2, RtCall.isPeerPrimitive]
  · refine ⟨[⟨RtCall.rtGetDevice, r0⟩], by simp [h0], ?_, ?_⟩
    · simp [RtCall.isPeerPrimitive]
    · intro index reply hmem
      simp at hmem

/-- C10: in each of `aclrtDeviceCanAccessPeer`, `aclrtDeviceEnablePeerAccess` and
`aclrtDeviceDisablePeerAccess`, the runtime calls `new` made by one call contain the peer
primitive (`rtDeviceCanAccessPeer` / `rtEnableP2P` / `rtDisableP2P`) only directly after
a `rtGetDevicePhyIdByIndex(peerDeviceId)` of the same call that answered
`RT_ERROR_NONE`, and the peer primitive is then passed the physical id that resolution
produced together with the caller's device id (`aclrtDeviceCanAccessPeer`) or the
current device id reported by `rtGetDevice` (enable, disable), converted to `uint32_t`;
if the resolution fails, the operation returns the translated runtime status and the
peer primitive is not invoked. -/
theorem peer_primitive_after_resolution (E : Env) (rt : Runtime) (canAccessPeer : Nat)
    (deviceId peerDeviceId : Int) (flags : Nat) (st : AclState) :
    (∃ new : List RtEvent,
      (aclrtDeviceCanAccessPeer E rt canAccessPeer deviceId peerDeviceId st).2.trace
        = st.trace ++ new ∧
      (∀ ev ∈ new, ev.call.isPeerPrimitive = true →
        ∃ (phyId : Int) (reply : RtReply),
          new = [⟨RtCall.rtGetDevicePhyIdByIndex (toUInt32 peerDeviceId),
                  ⟨E.RT_ERROR_NONE, phyId⟩⟩,
                 ⟨RtCall.rtDeviceCanAccessPeer canAccessPeer (toUInt32 deviceId) phyId,
                  reply⟩]) ∧
      ResolutionFailureStops E
        (aclrtDeviceCanAccessPeer E rt canAccessPeer deviceId peerDeviceId st).1 new) ∧
    (∃ new : List RtEvent,
      (aclrtDeviceEnablePeerAccess E rt peerDeviceId flags st).2.trace = st.trace ++ new ∧
      (∀ ev ∈ new, ev.call.isPeerPrimitive = true →
        ∃ (current phyId : Int) (reply : RtReply),
          new = [⟨RtCall.rtGetDevice, ⟨E.RT_ERROR_NONE, current⟩⟩,
                 ⟨RtCall.rtGetDevicePhyIdByIndex (toUInt32 peerDeviceId),
                  ⟨E.RT_ERROR_NONE, phyId⟩⟩,
                 ⟨RtCall.rtEnableP2P (toUInt32 current) phyId flags, reply⟩]) ∧
      ResolutionFailureStops E (aclrtDeviceEnablePeerAccess E rt peerDeviceId flags st).1
        new) ∧
    (∃ new : List RtEvent,
      (aclrtDeviceDisablePeerAccess E rt peerDeviceId st).2.trace = st.trace ++ new ∧
      (∀ ev ∈ new, ev.call.isPeerPrimitive = true →
        ∃ (current phyId : Int) (reply : RtReply),
          new = [⟨RtCall.rtGetDevice, ⟨E.RT_ERROR_NONE, current⟩⟩,
                 ⟨RtCall.rtGetDevicePhyIdByIndex (toUInt32 peerDeviceId),
                  ⟨E.RT_ERROR_NONE, phyId⟩⟩,
                 ⟨RtCall.rtDisableP2P (toUInt32 current) phyId, reply⟩]) ∧
      ResolutionFailureStops E (aclrtDeviceDisablePeerAccess E rt peerDeviceId st).1
        new) :=
  ⟨canAccessPeer_guarded E rt canAccessPeer deviceId peerDeviceId st,
    enablePeerAccess_guarded E rt peerDeviceId flags st,
    disablePeerAccess_guarded E rt peerDeviceId st⟩

/-- The peer operations on concrete runs: when every primitive succeeds the peer
primitive is reached with the resolved physical id (device 5 resolves to 105, the
current device is 2); when the resolution fails with status 507 the operation returns
that status translated and stops. -/
theorem peer_operations_example :
    aclrtDeviceCanAccessPeer sampleEnv okRuntime 4096 (-1) 5 initState
      = (aclError.ACL_SUCCESS,
          ⟨[⟨RtCall.rtGetDevicePhyIdByIndex 5, ⟨0, 105⟩⟩,
            ⟨RtCall.rtDeviceCanAccessPeer 4096 4294967295 105, ⟨0, 0⟩⟩], zeroStatistics⟩) ∧
    aclrtDeviceEnablePeerAccess sampleEnv okRuntime 5 0 initState
      = (aclError.ACL_SUCCESS,
          ⟨[⟨RtCall.rtGetDevice, ⟨0, 2⟩⟩, ⟨RtCall.rtGetDevicePhyIdByIndex 5, ⟨0, 105⟩⟩,
            ⟨RtCall.rtEnableP2P 2 105 0, ⟨0, 0⟩⟩], zeroStatistics⟩) ∧
    aclrtDeviceDisablePeerAccess sampleEnv okRuntime 5 initState
      = (aclError.ACL_SUCCESS,
          ⟨[⟨RtCall.rtGetDevice, ⟨0, 2⟩⟩, ⟨RtCall.rtGetDevicePhyIdByIndex 5, ⟨0, 105⟩⟩,
            ⟨RtCall.rtDisableP2P 2 105, ⟨0, 0⟩⟩], zeroStatistics⟩) ∧
    aclrtDeviceEnablePeerAccess sampleEnv failingRuntime 5 0 initState
      = (aclError.RuntimeFailure 507,
          ⟨[⟨RtCall.rtGetDevice, ⟨0, 2⟩⟩, ⟨RtCall.rtGetDevicePhyIdByIndex 5, ⟨507, 0⟩⟩],
            zeroStatistics⟩) := by
  decide

end Acl
